import Mathlib

/-!
Verification of the token-lifecycle / session-restoration core of the
`content-manager` repository: a shallow embedding of the Token Store
(`token-manager.ts`), the user directory merge (`user-service`), the
Session Manager (`auth-service`), the Application State Container
(`auth-slice.ts`), and the Request Pipeline (axios interceptors).

`localStorage` is modelled by the `Storage` record holding exactly the
keys the auth core touches; stored JSON values are modelled as their
parsed records.  Wall-clock time (`Date.now()`) and fresh UUIDs
(`uuidv4()`) are passed explicitly.  JavaScript string truthiness
(`if (!token)`) is modelled faithfully: `null` is `Option.none` and the
empty string is falsy.
-/

/-- User role, `'admin' | 'user'` from `types.ts`. -/
inductive UserRole where
  | admin : UserRole
  | user : UserRole
deriving DecidableEq, Repr

/-- `User` record from `types.ts`. -/
structure User where
  id : String
  email : String
  name : String
  role : UserRole
  avatar : Option String := none
deriving DecidableEq, Repr

/-- `TokenMetadata` from `token-manager.ts`. -/
structure TokenMetadata where
  userId : String
  email : String
  role : UserRole
  issuedAt : Int
  expiresAt : Int
deriving DecidableEq, Repr

/-- `TokenPair` from `types.ts`. -/
structure TokenPair where
  accessToken : String
  refreshToken : String
deriving DecidableEq, Repr

/-- `UserCredential` from `user-service.ts` (directory / custom_users record). -/
structure UserCredential where
  id : String
  email : String
  password : String
  name : String
  role : UserRole
  avatar : Option String := none
deriving DecidableEq, Repr

/-- `LoginCredentials` from `types.ts`. -/
structure LoginCredentials where
  email : String
  password : String
deriving DecidableEq, Repr

/-- The `AuthError` code taxonomy from `types.ts`. -/
inductive AuthErrorCode where
  | INVALID_CREDENTIALS
  | TOKEN_EXPIRED
  | TOKEN_INVALID
  | SESSION_NOT_FOUND
  | USER_NOT_FOUND
  | UPDATE_FAILED
  | INVALID_PASSWORD
  | WEAK_PASSWORD
  | SAME_PASSWORD
deriving DecidableEq, Repr

/-- The slice of `localStorage` the auth core reads and writes.
`accessToken`, `refreshToken` are the raw stored strings (`none` =
key absent; `some ""` is a present-but-falsy value).  `userInfo` is the
parsed cached user, `meta t` the parsed `token_meta_<t>` entry,
`customUsers` the parsed `custom_users` overlay list and `appSettings`
the opaque `app_settings` value. -/
@[ext]
structure Storage where
  accessToken : Option String
  refreshToken : Option String
  userInfo : Option User
  meta : String → Option TokenMetadata
  customUsers : List UserCredential
  appSettings : Option String

/-- JS truthiness of a `string | null` storage read: `null` and `""` are falsy. -/
def truthyStr : Option String → Option String
  | none => none
  | some s => if s = "" then none else some s

/-- `ACCESS_TOKEN_EXPIRY = 15 * 60 * 1000` (ms) from `token-manager.ts`. -/
def ACCESS_TOKEN_EXPIRY : Int := 15 * 60 * 1000

/-- `REFRESH_TOKEN_EXPIRY = 7 * 24 * 60 * 60 * 1000` (ms) from `token-manager.ts`. -/
def REFRESH_TOKEN_EXPIRY : Int := 7 * 24 * 60 * 60 * 1000

/-- `generateAccessToken(user)` from `token-manager.ts`: mint the fresh
UUID `fresh`, store its metadata keyed by the token, return the token.
The UUID supply is an explicit argument. -/
def generateAccessToken (σ : Storage) (now : Int) (fresh : String) (u : User) :
    String × Storage :=
  (fresh,
   { σ with meta := fun t =>
      if t = fresh then
        some { userId := u.id, email := u.email, role := u.role,
               issuedAt := now, expiresAt := now + ACCESS_TOKEN_EXPIRY }
      else σ.meta t })

/-- `generateRefreshToken(user)` from `token-manager.ts`. -/
def generateRefreshToken (σ : Storage) (now : Int) (fresh : String) (u : User) :
    String × Storage :=
  (fresh,
   { σ with meta := fun t =>
      if t = fresh then
        some { userId := u.id, email := u.email, role := u.role,
               issuedAt := now, expiresAt := now + REFRESH_TOKEN_EXPIRY }
      else σ.meta t })

/-- `createTokenPair(user)` from `token-manager.ts`: co-issue an access
and a refresh token (two fresh UUIDs). -/
def createTokenPair (σ : Storage) (now : Int) (freshA freshR : String) (u : User) :
    TokenPair × Storage :=
  let a := generateAccessToken σ now freshA u
  let r := generateRefreshToken a.2 now freshR u
  ({ accessToken := a.1, refreshToken := r.1 }, r.2)

/-- `getTokenMetadata(token)` from `token-manager.ts`: read-only lookup
of `token_meta_<token>`; parse failures are modelled as absence. -/
def getTokenMetadata (σ : Storage) (token : String) : Option TokenMetadata :=
  σ.meta token

/-- `isTokenValid(token)` from `token-manager.ts`: falsy token or missing
metadata is invalid, otherwise `Date.now() < expiresAt`. -/
def isTokenValid (σ : Storage) (now : Int) (token : String) : Bool :=
  if token = "" then false
  else
    match getTokenMetadata σ token with
    | none => false
    | some metadata => decide (now < metadata.expiresAt)

/-- `refreshAccessToken(refreshToken)` from `token-manager.ts`: valid-gate
on the refresh token, re-derive the user from the refresh token's own
metadata, issue a new access token.  Returns `none` (and an unchanged
store) on any invalidity. -/
def refreshAccessToken (σ : Storage) (now : Int) (fresh : String)
    (refreshToken : String) : Option String × Storage :=
  if !(isTokenValid σ now refreshToken) then (none, σ)
  else
    match getTokenMetadata σ refreshToken with
    | none => (none, σ)
    | some metadata =>
      let u : User :=
        { id := metadata.userId, email := metadata.email, name := "",
          role := metadata.role }
      let issued := generateAccessToken σ now fresh u
      (some issued.1, issued.2)

/-- `saveTokens(tokens)` from `token-manager.ts`: write the pair under the
`accessToken` / `refreshToken` keys. -/
def saveTokens (σ : Storage) (tokens : TokenPair) : Storage :=
  { σ with accessToken := some tokens.accessToken,
           refreshToken := some tokens.refreshToken }

/-- `getStoredTokens()` from `token-manager.ts`: `null` if either stored
value is absent or falsy. -/
def getStoredTokens (σ : Storage) : Option TokenPair :=
  match truthyStr σ.accessToken, truthyStr σ.refreshToken with
  | some a, some r => some { accessToken := a, refreshToken := r }
  | _, _ => none

/-- One `if (token) localStorage.removeItem('token_meta_' + token)` step
of `clearTokens`: remove the metadata entry of a stored token value only
when that value is truthy. -/
def removeMetaIfTruthy (σ : Storage) (v : Option String) : Storage :=
  match truthyStr v with
  | some a => { σ with meta := fun t => if t = a then none else σ.meta t }
  | none => σ

/-- `clearTokens()` from `token-manager.ts`: read the two stored token
values, remove the three session keys, then remove the `token_meta_`
entry of each stored token value that is truthy (`if (accessToken)`). -/
def clearTokens (σ : Storage) : Storage :=
  removeMetaIfTruthy
    (removeMetaIfTruthy
      { σ with accessToken := none, refreshToken := none, userInfo := none }
      σ.accessToken)
    σ.refreshToken

/-- `getAllUsers()` from `user-service.ts` (pure merge step): directory
records overridden by `custom_users` entries with the same id. -/
def getAllUsers (directory : List UserCredential)
    (customUsers : List UserCredential) : List UserCredential :=
  directory.map (fun mockUser =>
    match customUsers.find? (fun u => u.id == mockUser.id) with
    | some customUser => customUser
    | none => mockUser)

/-- Result shape of the async auth-service operations:
`{ data, error }` plus the resulting storage state. -/
structure SessionResult (α : Type) where
  data : Option α
  error : Option AuthErrorCode
  store : Storage

/-- `login(credentials)` from `auth-service.ts`: fetch the directory
(`auth.json` users, passed in as `directory`), find an exact
email+password match, mint a token pair, persist it and the user record.
Note the source matches against the raw fetched `users` list only; it
does not merge the `custom_users` overlay. -/
def login (directory : List UserCredential) (σ : Storage) (now : Int)
    (freshA freshR : String) (credentials : LoginCredentials) :
    SessionResult (User × TokenPair) :=
  match directory.find? (fun u =>
      u.email == credentials.email && u.password == credentials.password) with
  | none => { data := none, error := some .INVALID_CREDENTIALS, store := σ }
  | some u =>
    let userInfo : User :=
      { id := u.id, email := u.email, name := u.name, role := u.role,
        avatar := u.avatar }
    let issued := createTokenPair σ now freshA freshR userInfo
    let σ1 := saveTokens issued.2 issued.1
    let σ2 := { σ1 with userInfo := some userInfo }
    { data := some (userInfo, issued.1), error := none, store := σ2 }

/-- `getSession()` from `auth-service.ts`: read the stored pair
(`SESSION_NOT_FOUND` if absent); if the access token is expired, renew
via the refresh token (`TOKEN_EXPIRED` + `clearTokens` on failure,
persist the new pair on success); finally restore the cached user
(`SESSION_NOT_FOUND` if the `userInfo` key is absent). -/
def getSession (σ : Storage) (now : Int) (fresh : String) :
    SessionResult (User × String) :=
  match getStoredTokens σ with
  | none => { data := none, error := some .SESSION_NOT_FOUND, store := σ }
  | some tokens =>
    if isTokenValid σ now tokens.accessToken then
      match σ.userInfo with
      | none => { data := none, error := some .SESSION_NOT_FOUND, store := σ }
      | some user =>
        { data := some (user, tokens.accessToken), error := none, store := σ }
    else
      match refreshAccessToken σ now fresh tokens.refreshToken with
      | (none, σ1) =>
        { data := none, error := some .TOKEN_EXPIRED, store := clearTokens σ1 }
      | (some newAccessToken, σ1) =>
        let σ2 := saveTokens σ1
          { accessToken := newAccessToken, refreshToken := tokens.refreshToken }
        match σ2.userInfo with
        | none => { data := none, error := some .SESSION_NOT_FOUND, store := σ2 }
        | some user =>
          { data := some (user, newAccessToken), error := none, store := σ2 }

/-- `logout()` from `auth-service.ts`: `clearTokens()` and report success. -/
def logout (σ : Storage) : Option AuthErrorCode × Storage :=
  (none, clearTokens σ)

/-- `isAuthenticated()` from `auth-service.ts`: false without a stored
pair, else access-token-valid OR refresh-token-valid. -/
def isAuthenticated (σ : Storage) (now : Int) : Bool :=
  match getStoredTokens σ with
  | none => false
  | some tokens =>
    isTokenValid σ now tokens.accessToken || isTokenValid σ now tokens.refreshToken

/-- `AuthState` from `auth-slice.ts` (the Application State Container). -/
structure AuthState where
  user : Option User
  accessToken : Option String
  isAuthenticated : Bool
  loading : Bool
  error : Option String
deriving DecidableEq, Repr

/-- `initialState` from `auth-slice.ts`. -/
def initialAuthState : AuthState :=
  { user := none, accessToken := none, isAuthenticated := false,
    loading := false, error := none }

/-- JS `payload || dflt` for a `string | undefined` payload: `undefined`
and `""` fall through to the default. -/
def jsStringOr (payload : Option String) (dflt : String) : String :=
  match payload with
  | none => dflt
  | some m => if m = "" then dflt else m

/-- `loginThunk.rejected` case from `auth-slice.ts`: stores the rejection
message (or a default) in `error`. -/
def loginRejected (payload : Option String) (s : AuthState) : AuthState :=
  { s with loading := false,
           error := some (jsStringOr payload "로그인에 실패했습니다."),
           isAuthenticated := false }

/-- `getSessionThunk.rejected` case from `auth-slice.ts`: the handler
ignores the action payload; the error field is set to `null`. -/
def getSessionRejected (payload : Option String) (s : AuthState) : AuthState :=
  let _ := payload
  { s with loading := false, error := none, isAuthenticated := false }

/-- `clearAuth` reducer from `auth-slice.ts`. -/
def clearAuth (_s : AuthState) : AuthState := initialAuthState

/-- `setAccessToken` reducer from `auth-slice.ts`. -/
def setAccessToken (token : String) (s : AuthState) : AuthState :=
  { s with accessToken := some token }

/-- Per-request context carried by the Request Pipeline: the
`_isRetry` flag and the `Authorization` header of the original request
config. -/
structure ReqConfig where
  isRetry : Bool
  authHeader : Option String
deriving DecidableEq, Repr

/-- Outcome of the response interceptor's error handler: resend the
(mutated) original request once, or reject and surface the original
failure. -/
inductive InterceptResult where
  | resend (cfg : ReqConfig) (σ : Storage)
  | reject (σ : Storage)

/-- The `axiosInstance.interceptors.response.use` error handler from
`axios-instance.ts`: on a 401 for a request not yet retried, set
`_isRetry`, renew via the stored refresh token, persist + rewrite the
header and resend; on any renewal failure, or for any other status, or
for an already-retried request, reject (the catch path also resets the
Application State Container, not modelled here). -/
def onResponseError (σ : Storage) (now : Int) (fresh : String)
    (status : Nat) (originalRequest : ReqConfig) : InterceptResult :=
  if status == 401 && !originalRequest.isRetry then
    match getStoredTokens σ with
    | none => .reject σ
    | some tokens =>
      if !(isTokenValid σ now tokens.refreshToken) then .reject σ
      else
        match refreshAccessToken σ now fresh tokens.refreshToken with
        | (none, σ1) => .reject σ1
        | (some newAccessToken, σ1) =>
          .resend
            { originalRequest with
                isRetry := true
                authHeader := some ("Bearer " ++ newAccessToken) }
            (saveTokens σ1
              { accessToken := newAccessToken,
                refreshToken := tokens.refreshToken })
  else .reject σ

/-- Outcome of driving one logical request against a server that always
answers 401: the pipeline surfaced the failure, or the driver ran out of
fuel. -/
inductive RunOutcome where
  | failed
  | exhausted
deriving DecidableEq, Repr

/-- Drive one logical request against an all-401 server: each step sends
the request (counted) and feeds the 401 to the response interceptor;
`resend` loops with the mutated config, `reject` stops having surfaced
the failure.  `freshAt k` is the UUID supply for the k-th renewal. -/
def run401 : Nat → Storage → Int → (Nat → String) → Nat → ReqConfig →
    Nat × RunOutcome
  | 0, _, _, _, _, _ => (0, .exhausted)
  | fuel + 1, σ, now, freshAt, k, cfg =>
    match onResponseError σ now (freshAt k) 401 cfg with
    | .resend cfg1 σ1 =>
      let rest := run401 fuel σ1 now freshAt (k + 1) cfg1
      (rest.1 + 1, rest.2)
    | .reject _ => (1, .failed)

/-- A storage state with every key absent. -/
def emptyStore : Storage :=
  { accessToken := none, refreshToken := none, userInfo := none,
    meta := fun _ => none, customUsers := [], appSettings := none }

/-- C2: `isTokenValid(T)` is true exactly when `T` is non-empty, a
metadata record for `T` exists in storage, and `now` is strictly before
that record's `expiresAt`.  The embedding types the check as a pure read:
it consumes `Storage` and returns only a `Bool`, so it performs no write. -/
theorem isTokenValid_iff_expiry (σ : Storage) (now : Int) (t : String) :
    isTokenValid σ now t = true ↔
      t ≠ "" ∧ ∃ m, σ.meta t = some m ∧ now < m.expiresAt := by
  unfold isTokenValid getTokenMetadata
  by_cases ht : t = ""
  · simp [ht]
  · cases hm : σ.meta t <;> simp [ht, hm]

/-- C6: with no stored pair `isAuthenticated()` is false; with a stored
pair it is true exactly when the access token or the refresh token is
valid (the deliberately lenient UI-gating check). -/
theorem isAuthenticated_lenient (σ : Storage) (now : Int) :
    (getStoredTokens σ = none → isAuthenticated σ now = false) ∧
    (∀ tokens, getStoredTokens σ = some tokens →
      (isAuthenticated σ now = true ↔
        isTokenValid σ now tokens.accessToken = true ∨
        isTokenValid σ now tokens.refreshToken = true)) := by
  constructor
  · intro h
    simp [isAuthenticated, h]
  · intro tokens h
    simp [isAuthenticated, h, Bool.or_eq_true]

/-- Witness for C6: a state whose access token is expired but whose
refresh token is still valid is authenticated. -/
theorem isAuthenticated_lenient_witness :
    isAuthenticated
      { accessToken := some "a", refreshToken := some "r", userInfo := none,
        meta := fun t =>
          if t = "a" then
            some { userId := "u1", email := "e", role := .user,
                   issuedAt := 0, expiresAt := 5 }
          else if t = "r" then
            some { userId := "u1", email := "e", role := .user,
                   issuedAt := 0, expiresAt := 100 }
          else none,
        customUsers := [], appSettings := none } 10 = true :=
  ((isAuthenticated_lenient _ 10).2 { accessToken := "a", refreshToken := "r" }
      (by decide)).mpr (Or.inr (by decide))

/-- C9: the `getSessionThunk.rejected` transition leaves `error` at
`none` whatever the rejection payload was, sets `isAuthenticated` and
`loading` to false and touches nothing else — whereas
`loginThunk.rejected` stores the rejection message in `error`. -/
theorem getSessionRejected_silent (s : AuthState) (payload : Option String) :
    getSessionRejected payload s =
      { s with loading := false, error := none, isAuthenticated := false } ∧
    (∀ m, m ≠ "" → (loginRejected (some m) s).error = some m) := by
  refine ⟨rfl, ?_⟩
  intro m hm
  simp [loginRejected, jsStringOr, hm]

/-- Witness for C9 at a concrete state and payload. -/
theorem getSessionRejected_silent_witness :
    getSessionRejected (some "boom")
        { user := none, accessToken := some "a", isAuthenticated := true,
          loading := true, error := some "old" } =
      { user := none, accessToken := some "a", isAuthenticated := false,
        loading := false, error := none } ∧
    (loginRejected (some "bad") initialAuthState).error = some "bad" :=
  ⟨(getSessionRejected_silent
      { user := none, accessToken := some "a", isAuthenticated := true,
        loading := true, error := some "old" } (some "boom")).1,
   (getSessionRejected_silent initialAuthState (some "bad")).2 "bad" (by decide)⟩

/-- Whenever renewal returns `none`, the store is left unchanged. -/
theorem refreshAccessToken_fail_store (σ : Storage) (now : Int)
    (fresh r : String)
    (h : (refreshAccessToken σ now fresh r).1 = none) :
    (refreshAccessToken σ now fresh r).2 = σ := by
  cases hv : isTokenValid σ now r with
  | false => simp [refreshAccessToken, hv]
  | true =>
    cases hm : getTokenMetadata σ r with
    | none => simp [refreshAccessToken, hv, hm]
    | some m => simp [refreshAccessToken, hv, hm] at h

/-- Renewal never touches the `accessToken`, `refreshToken`, `userInfo`,
`custom_users` or `app_settings` keys: only a `token_meta_` entry may be
added. -/
theorem refreshAccessToken_store_frame (σ : Storage) (now : Int)
    (fresh r : String) :
    (refreshAccessToken σ now fresh r).2.accessToken = σ.accessToken ∧
    (refreshAccessToken σ now fresh r).2.refreshToken = σ.refreshToken ∧
    (refreshAccessToken σ now fresh r).2.userInfo = σ.userInfo ∧
    (refreshAccessToken σ now fresh r).2.customUsers = σ.customUsers ∧
    (refreshAccessToken σ now fresh r).2.appSettings = σ.appSettings := by
  unfold refreshAccessToken
  split
  · exact ⟨rfl, rfl, rfl, rfl, rfl⟩
  · cases hm : getTokenMetadata σ r <;> simp [hm, generateAccessToken]

/-- C5: `refreshAccessToken(R)` returns `none` and leaves the store
unchanged whenever `R` is invalid (in particular when it has no
metadata); when `R` is valid it returns the freshly minted token, whose
stored metadata carries the `userId`, `email` and `role` of `R`'s own
metadata with a fresh access-token expiry.  The result is independent of
the `custom_users` overlay, so later edits to the underlying user record
(role changes included) do not affect renewed tokens.  The embedding is
a total function: no fault is ever thrown. -/
theorem refreshAccessToken_spec (σ : Storage) (now : Int) (fresh r : String) :
    (isTokenValid σ now r = false →
        refreshAccessToken σ now fresh r = (none, σ)) ∧
    (∀ m, σ.meta r = some m → isTokenValid σ now r = true →
        refreshAccessToken σ now fresh r =
          (some fresh,
           { σ with meta := fun t =>
              if t = fresh then
                some { userId := m.userId, email := m.email, role := m.role,
                       issuedAt := now, expiresAt := now + ACCESS_TOKEN_EXPIRY }
              else σ.meta t })) ∧
    (∀ cu,
        (refreshAccessToken { σ with customUsers := cu } now fresh r).1 =
          (refreshAccessToken σ now fresh r).1 ∧
        (refreshAccessToken { σ with customUsers := cu } now fresh r).2.meta =
          (refreshAccessToken σ now fresh r).2.meta) := by
  refine ⟨?_, ?_, ?_⟩
  · intro h
    unfold refreshAccessToken
    simp [h]
  · intro m hm hv
    unfold refreshAccessToken
    simp [hv, getTokenMetadata, hm, generateAccessToken]
  · intro cu
    have hvalid : isTokenValid { σ with customUsers := cu } now r =
        isTokenValid σ now r := rfl
    have hmeta : getTokenMetadata { σ with customUsers := cu } r =
        getTokenMetadata σ r := rfl
    unfold refreshAccessToken
    rw [hvalid, hmeta]
    split
    · exact ⟨rfl, rfl⟩
    · cases hm : getTokenMetadata σ r with
      | none => simp [hm]
      | some m => simp [hm, generateAccessToken]

/-- Witness for C5: a valid refresh token for role `user` renews to an
access token still carrying role `user`, even though the `custom_users`
overlay has since promoted the user record to `admin`. -/
theorem refreshAccessToken_spec_witness :
    refreshAccessToken
        { accessToken := none, refreshToken := some "r", userInfo := none,
          meta := fun t =>
            if t = "r" then
              some { userId := "u1", email := "e", role := .user,
                     issuedAt := 0, expiresAt := 100 }
            else none,
          customUsers := [{ id := "u1", email := "e", password := "p",
                            name := "N", role := .admin }],
          appSettings := none } 10 "f" "r" =
      (some "f",
       { accessToken := none, refreshToken := some "r", userInfo := none,
         meta := fun t =>
           if t = "f" then
             some { userId := "u1", email := "e", role := .user,
                    issuedAt := 10, expiresAt := 10 + ACCESS_TOKEN_EXPIRY }
           else
             if t = "r" then
               some { userId := "u1", email := "e", role := .user,
                      issuedAt := 0, expiresAt := 100 }
             else none,
         customUsers := [{ id := "u1", email := "e", password := "p",
                           name := "N", role := .admin }],
         appSettings := none }) :=
  (refreshAccessToken_spec _ 10 "f" "r").2.1
    { userId := "u1", email := "e", role := .user,
      issuedAt := 0, expiresAt := 100 }
    (by decide) (by decide)

/-- C4: session restoration.  With no stored pair, `SESSION_NOT_FOUND`
and an untouched store.  With a valid access token and a cached user,
the pair is returned as-is and the store is untouched (no token issued).
With an expired access token and a failed renewal, all session data is
cleared and the result is `TOKEN_EXPIRED`.  With an expired access token
and a successful renewal, the new access token is persisted with the
refresh token unchanged before returning. -/
theorem getSession_spec (σ : Storage) (now : Int) (fresh : String) :
    (getStoredTokens σ = none →
        getSession σ now fresh =
          { data := none, error := some .SESSION_NOT_FOUND, store := σ }) ∧
    (∀ tokens u, getStoredTokens σ = some tokens →
        isTokenValid σ now tokens.accessToken = true → σ.userInfo = some u →
        getSession σ now fresh =
          { data := some (u, tokens.accessToken), error := none, store := σ }) ∧
    (∀ tokens, getStoredTokens σ = some tokens →
        isTokenValid σ now tokens.accessToken = false →
        (refreshAccessToken σ now fresh tokens.refreshToken).1 = none →
        getSession σ now fresh =
          { data := none, error := some .TOKEN_EXPIRED,
            store := clearTokens σ }) ∧
    (∀ tokens newTok, getStoredTokens σ = some tokens →
        isTokenValid σ now tokens.accessToken = false →
        (refreshAccessToken σ now fresh tokens.refreshToken).1 = some newTok →
        (getSession σ now fresh).store.accessToken = some newTok ∧
        (getSession σ now fresh).store.refreshToken =
          some tokens.refreshToken) := by
  refine ⟨?_, ?_, ?_, ?_⟩
  · intro h
    simp [getSession, h]
  · intro tokens u hstored hvalid hui
    simp [getSession, hstored, hvalid, hui]
  · intro tokens hstored hvalid h1
    have h2 := refreshAccessToken_fail_store σ now fresh tokens.refreshToken h1
    have he : refreshAccessToken σ now fresh tokens.refreshToken = (none, σ) :=
      Prod.ext_iff.mpr ⟨h1, h2⟩
    simp [getSession, hstored, hvalid, he]
  · intro tokens newTok hstored hvalid h1
    rcases he : refreshAccessToken σ now fresh tokens.refreshToken with ⟨o, σr⟩
    rw [he] at h1
    simp only at h1
    subst h1
    cases hu : σr.userInfo <;>
      simp [getSession, hstored, hvalid, he, saveTokens, hu]

/-- Witness for C4 at a concrete store with no persisted pair. -/
theorem getSession_spec_witness :
    getSession emptyStore 0 "f" =
      { data := none, error := some .SESSION_NOT_FOUND,
        store := emptyStore } :=
  (getSession_spec emptyStore 0 "f").1 rfl

/-- C10: even with a stored pair whose access token is valid (or was
renewed successfully), `getSession` fails with `SESSION_NOT_FOUND` when
the `userInfo` key is absent, and it does not clear the stored tokens:
in the valid case the store is untouched, in the renewed case the store
still holds the freshly persisted pair. -/
theorem getSession_needs_userInfo (σ : Storage) (now : Int) (fresh : String)
    (tokens : TokenPair) (hstored : getStoredTokens σ = some tokens)
    (hui : σ.userInfo = none) :
    (isTokenValid σ now tokens.accessToken = true →
        getSession σ now fresh =
          { data := none, error := some .SESSION_NOT_FOUND, store := σ }) ∧
    (∀ newTok, isTokenValid σ now tokens.accessToken = false →
        (refreshAccessToken σ now fresh tokens.refreshToken).1 = some newTok →
        (getSession σ now fresh).data = none ∧
        (getSession σ now fresh).error = some .SESSION_NOT_FOUND ∧
        (getSession σ now fresh).store.accessToken = some newTok ∧
        (getSession σ now fresh).store.refreshToken =
          some tokens.refreshToken) := by
  constructor
  · intro hvalid
    simp [getSession, hstored, hvalid, hui]
  · intro newTok hvalid h1
    rcases he : refreshAccessToken σ now fresh tokens.refreshToken with ⟨o, σr⟩
    rw [he] at h1
    simp only at h1
    subst h1
    have hframe := refreshAccessToken_store_frame σ now fresh tokens.refreshToken
    rw [he] at hframe
    have hu : σr.userInfo = none := by
      rw [hframe.2.2.1, hui]
    simp [getSession, hstored, hvalid, he, saveTokens, hu]

/-- Witness for C10: a stored pair with a valid access token but no
cached `userInfo` restores nothing, with the store untouched. -/
theorem getSession_needs_userInfo_witness :
    getSession
        { accessToken := some "a", refreshToken := some "r", userInfo := none,
          meta := fun t =>
            if t = "a" then
              some { userId := "u1", email := "e", role := .user,
                     issuedAt := 0, expiresAt := 100 }
            else none,
          customUsers := [], appSettings := none } 10 "f" =
      { data := none, error := some .SESSION_NOT_FOUND,
        store :=
          { accessToken := some "a", refreshToken := some "r",
            userInfo := none,
            meta := fun t =>
              if t = "a" then
                some { userId := "u1", email := "e", role := .user,
                       issuedAt := 0, expiresAt := 100 }
              else none,
            customUsers := [], appSettings := none } } :=
  (getSession_needs_userInfo _ 10 "f" { accessToken := "a", refreshToken := "r" }
      (by decide) rfl).1 (by decide)

/-- Any resent request carries the `_isRetry` flag. -/
theorem onResponseError_resend_flag (σ : Storage) (now : Int) (fresh : String)
    (status : Nat) (cfg cfg1 : ReqConfig) (σ1 : Storage)
    (h : onResponseError σ now fresh status cfg = .resend cfg1 σ1) :
    cfg1.isRetry = true := by
  unfold onResponseError at h
  split at h
  · split at h
    · simp at h
    · split at h
      · simp at h
      · split at h
        · simp at h
        · cases h
          rfl
  · simp at h

/-- An already-retried request is never resent: the interceptor rejects
it whatever the status and storage are. -/
theorem onResponseError_retried (σ : Storage) (now : Int) (fresh : String)
    (status : Nat) (cfg : ReqConfig) (h : cfg.isRetry = true) :
    onResponseError σ now fresh status cfg = .reject σ := by
  have hc : (status == 401 && !cfg.isRetry) = false := by simp [h]
  unfold onResponseError
  simp [hc]

/-- C1: against a server answering 401 to every send of one logical
request, the pipeline sends at most twice (the original plus at most one
renewal-and-resend, guarded by the `_isRetry` flag) and, given fuel for
at least two exchanges, ends by surfacing the failure — never an
unbounded retry loop. -/
theorem retry_at_most_once (fuel : Nat) (σ : Storage) (now : Int)
    (freshAt : Nat → String) (k : Nat) (cfg : ReqConfig)
    (hstart : cfg.isRetry = false) :
    (run401 fuel σ now freshAt k cfg).1 ≤ 2 ∧
    (2 ≤ fuel → (run401 fuel σ now freshAt k cfg).2 = .failed) := by
  match fuel with
  | 0 => simp [run401]
  | 1 =>
    show (run401 (0 + 1) σ now freshAt k cfg).1 ≤ 2 ∧
      (2 ≤ 0 + 1 → (run401 (0 + 1) σ now freshAt k cfg).2 = .failed)
    cases h1 : onResponseError σ now (freshAt k) 401 cfg with
    | reject σr => simp [run401, h1]
    | resend cfg1 σ1 => simp [run401, h1]
  | n + 2 =>
    show (run401 (n + 1 + 1) σ now freshAt k cfg).1 ≤ 2 ∧
      (2 ≤ n + 1 + 1 → (run401 (n + 1 + 1) σ now freshAt k cfg).2 = .failed)
    cases h1 : onResponseError σ now (freshAt k) 401 cfg with
    | reject σr => simp [run401, h1]
    | resend cfg1 σ1 =>
      have hflag : cfg1.isRetry = true :=
        onResponseError_resend_flag σ now (freshAt k) 401 cfg cfg1 σ1 h1
      have h2 := onResponseError_retried σ1 now (freshAt (k + 1)) 401 cfg1 hflag
      simp [run401, h1, h2]

/-- Witness for C1: a concrete all-401 run from a fresh request with a
valid refresh token sends at most twice and surfaces failure. -/
theorem retry_at_most_once_witness :
    (run401 5
        { accessToken := some "a", refreshToken := some "r", userInfo := none,
          meta := fun t =>
            if t = "r" then
              some { userId := "u1", email := "e", role := .user,
                     issuedAt := 0, expiresAt := 100 }
            else none,
          customUsers := [], appSettings := none }
        10 (fun _ => "f") 0 { isRetry := false, authHeader := none }).1 ≤ 2 ∧
    (run401 5
        { accessToken := some "a", refreshToken := some "r", userInfo := none,
          meta := fun t =>
            if t = "r" then
              some { userId := "u1", email := "e", role := .user,
                     issuedAt := 0, expiresAt := 100 }
            else none,
          customUsers := [], appSettings := none }
        10 (fun _ => "f") 0 { isRetry := false, authHeader := none }).2 =
      .failed :=
  ⟨(retry_at_most_once 5 _ 10 (fun _ => "f") 0
      { isRetry := false, authHeader := none } rfl).1,
   (retry_at_most_once 5 _ 10 (fun _ => "f") 0
      { isRetry := false, authHeader := none } rfl).2 (by decide)⟩

/-- A `some` result of the truthiness filter is the stored value itself. -/
theorem truthyStr_eq_some (v : Option String) (a : String)
    (h : truthyStr v = some a) : v = some a ∧ a ≠ "" := by
  cases v with
  | none => simp [truthyStr] at h
  | some s =>
    by_cases hs : s = "" <;> simp [truthyStr, hs] at h <;> simp [h, hs]
    exact fun hc => hs (h ▸ hc)

/-- `clearTokens` leaves the three session keys absent and preserves
`custom_users` and `app_settings`. -/
theorem clearTokens_keys (σ : Storage) :
    (clearTokens σ).accessToken = none ∧
    (clearTokens σ).refreshToken = none ∧
    (clearTokens σ).userInfo = none ∧
    (clearTokens σ).customUsers = σ.customUsers ∧
    (clearTokens σ).appSettings = σ.appSettings := by
  unfold clearTokens removeMetaIfTruthy
  rcases truthyStr σ.accessToken with _ | a <;>
    rcases truthyStr σ.refreshToken with _ | r <;> simp

/-- Pointwise effect of `clearTokens` on the metadata table: an entry is
removed exactly when its key is one of the two truthy stored token
values. -/
theorem clearTokens_meta (σ : Storage) (t : String) :
    (clearTokens σ).meta t =
      if truthyStr σ.accessToken = some t ∨ truthyStr σ.refreshToken = some t
      then none else σ.meta t := by
  unfold clearTokens removeMetaIfTruthy
  rcases ha : truthyStr σ.accessToken with _ | a
  · rcases hr : truthyStr σ.refreshToken with _ | r
    · simp [ha, hr]
    · by_cases h2 : t = r <;> simp_all [eq_comm]
  · rcases hr : truthyStr σ.refreshToken with _ | r
    · by_cases h1 : t = a <;> simp_all [eq_comm]
    · by_cases h1 : t = a <;> by_cases h2 : t = r <;> simp_all [eq_comm]

/-- `clearTokens` is idempotent. -/
theorem clearTokens_idem (σ : Storage) :
    clearTokens (clearTokens σ) = clearTokens σ := by
  have hk := clearTokens_keys σ
  have h1 : clearTokens (clearTokens σ) =
      removeMetaIfTruthy
        (removeMetaIfTruthy
          { clearTokens σ with
              accessToken := none
              refreshToken := none
              userInfo := none }
          (clearTokens σ).accessToken)
        (clearTokens σ).refreshToken := rfl
  rw [h1, hk.1, hk.2.1]
  show { clearTokens σ with
           accessToken := none
           refreshToken := none
           userInfo := none } = clearTokens σ
  apply Storage.ext <;> simp [hk.1, hk.2.1, hk.2.2.1]

/-- C7 (amended): logout always reports success and is idempotent on
every storage state, and it leaves the `accessToken`, `refreshToken` and
`userInfo` keys absent after each call; the metadata entries of the
previously stored token values are removed for every non-empty stored
value (the source's `if (accessToken)` truthiness guard skips an
empty-string value — see the counterexample). -/
theorem logout_idempotent_total (σ : Storage) :
    (logout σ).1 = none ∧
    (logout (logout σ).2).1 = none ∧
    (logout (logout σ).2).2 = (logout σ).2 ∧
    (logout σ).2.accessToken = none ∧
    (logout σ).2.refreshToken = none ∧
    (logout σ).2.userInfo = none ∧
    (∀ t, t ≠ "" → (σ.accessToken = some t ∨ σ.refreshToken = some t) →
        (logout σ).2.meta t = none ∧ (logout (logout σ).2).2.meta t = none) := by
  have hk := clearTokens_keys σ
  have hidem := clearTokens_idem σ
  refine ⟨rfl, rfl, hidem, hk.1, hk.2.1, hk.2.2.1, ?_⟩
  intro t ht hst
  have htr : truthyStr σ.accessToken = some t ∨
      truthyStr σ.refreshToken = some t := by
    rcases hst with h | h
    · left; simp [truthyStr, h, ht]
    · right; simp [truthyStr, h, ht]
  constructor
  · rw [show (logout σ).2 = clearTokens σ from rfl, clearTokens_meta,
      if_pos htr]
  · show (clearTokens (clearTokens σ)).meta t = none
    rw [hidem, clearTokens_meta, if_pos htr]

/-- Counterexample to C7 as stated: when the stored access-token value is
the empty string, logout leaves that stored value's `token_meta_` entry
in place, so the listed session entries are not all absent afterwards. -/
theorem logout_empty_token_counterexample :
    ({ accessToken := some "", refreshToken := none, userInfo := none,
       meta := fun t =>
         if t = "" then
           some { userId := "u1", email := "e", role := .user,
                  issuedAt := 0, expiresAt := 10 }
         else none,
       customUsers := [], appSettings := none } : Storage).accessToken =
      some "" ∧
    (logout
        { accessToken := some "", refreshToken := none, userInfo := none,
          meta := fun t =>
            if t = "" then
              some { userId := "u1", email := "e", role := .user,
                     issuedAt := 0, expiresAt := 10 }
            else none,
          customUsers := [], appSettings := none }).2.meta "" =
      some { userId := "u1", email := "e", role := .user,
             issuedAt := 0, expiresAt := 10 } := by
  exact ⟨rfl, rfl⟩

/-- Witness for C7 at a state holding a full session. -/
theorem logout_idempotent_total_witness :
    (logout
        { accessToken := some "a", refreshToken := some "r",
          userInfo := some { id := "u1", email := "e", name := "N",
                             role := .user },
          meta := fun t =>
            if t = "a" ∨ t = "r" then
              some { userId := "u1", email := "e", role := .user,
                     issuedAt := 0, expiresAt := 10 }
            else none,
          customUsers := [], appSettings := none }).1 = none ∧
    (logout
        { accessToken := some "a", refreshToken := some "r",
          userInfo := some { id := "u1", email := "e", name := "N",
                             role := .user },
          meta := fun t =>
            if t = "a" ∨ t = "r" then
              some { userId := "u1", email := "e", role := .user,
                     issuedAt := 0, expiresAt := 10 }
            else none,
          customUsers := [], appSettings := none }).2.meta "a" = none :=
  ⟨(logout_idempotent_total _).1,
   ((logout_idempotent_total _).2.2.2.2.2.2 "a" (by decide) (Or.inl rfl)).1⟩

/-- C8 (amended): `clearTokens` empties exactly the `accessToken`,
`refreshToken` and `userInfo` keys plus the `token_meta_` entries of the
non-empty token values stored under `accessToken`/`refreshToken` at call
time, and leaves `custom_users`, `app_settings` and every other
`token_meta_` entry unchanged.  (For an empty-string stored value the
truthiness guard skips the metadata removal — see the counterexample.) -/
theorem clearTokens_exact_frame (σ : Storage) :
    (clearTokens σ).accessToken = none ∧
    (clearTokens σ).refreshToken = none ∧
    (clearTokens σ).userInfo = none ∧
    (clearTokens σ).customUsers = σ.customUsers ∧
    (clearTokens σ).appSettings = σ.appSettings ∧
    (∀ t, σ.accessToken ≠ some t → σ.refreshToken ≠ some t →
        (clearTokens σ).meta t = σ.meta t) ∧
    (∀ t, t ≠ "" → (σ.accessToken = some t ∨ σ.refreshToken = some t) →
        (clearTokens σ).meta t = none) := by
  have hk := clearTokens_keys σ
  refine ⟨hk.1, hk.2.1, hk.2.2.1, hk.2.2.2.1, hk.2.2.2.2, ?_, ?_⟩
  · intro t h1 h2
    rw [clearTokens_meta, if_neg]
    rintro (h | h)
    · exact h1 (truthyStr_eq_some _ _ h).1
    · exact h2 (truthyStr_eq_some _ _ h).1
  · intro t ht hst
    rw [clearTokens_meta, if_pos]
    rcases hst with h | h
    · left; simp [truthyStr, h, ht]
    · right; simp [truthyStr, h, ht]

/-- Counterexample to C8 as stated: an empty-string stored token value
keeps its `token_meta_` entry through `clearTokens`, so the removal set
is not exactly the entries of the stored tokens. -/
theorem clearTokens_empty_token_counterexample :
    ({ accessToken := some "", refreshToken := some "r", userInfo := none,
       meta := fun t =>
         if t = "" ∨ t = "r" then
           some { userId := "u1", email := "e", role := .user,
                  issuedAt := 0, expiresAt := 10 }
         else none,
       customUsers := [], appSettings := none } : Storage).accessToken =
      some "" ∧
    (clearTokens
        { accessToken := some "", refreshToken := some "r", userInfo := none,
          meta := fun t =>
            if t = "" ∨ t = "r" then
              some { userId := "u1", email := "e", role := .user,
                     issuedAt := 0, expiresAt := 10 }
            else none,
          customUsers := [], appSettings := none }).meta "r" = none ∧
    (clearTokens
        { accessToken := some "", refreshToken := some "r", userInfo := none,
          meta := fun t =>
            if t = "" ∨ t = "r" then
              some { userId := "u1", email := "e", role := .user,
                     issuedAt := 0, expiresAt := 10 }
            else none,
          customUsers := [], appSettings := none }).meta "" =
      some { userId := "u1", email := "e", role := .user,
             issuedAt := 0, expiresAt := 10 } := by
  refine ⟨rfl, ?_, ?_⟩ <;> decide

/-- Witness for C8: removal of the stored tokens' entries and
preservation of an unrelated token's entry and of `custom_users`. -/
theorem clearTokens_exact_frame_witness :
    (clearTokens
        { accessToken := some "a", refreshToken := some "r", userInfo := none,
          meta := fun t =>
            if t = "a" ∨ t = "r" ∨ t = "other" then
              some { userId := "u1", email := "e", role := .user,
                     issuedAt := 0, expiresAt := 10 }
            else none,
          customUsers := [], appSettings := some "s" }).meta "other" =
      some { userId := "u1", email := "e", role := .user,
             issuedAt := 0, expiresAt := 10 } ∧
    (clearTokens
        { accessToken := some "a", refreshToken := some "r", userInfo := none,
          meta := fun t =>
            if t = "a" ∨ t = "r" ∨ t = "other" then
              some { userId := "u1", email := "e", role := .user,
                     issuedAt := 0, expiresAt := 10 }
            else none,
          customUsers := [], appSettings := some "s" }).meta "a" = none :=
  ⟨((clearTokens_exact_frame _).2.2.2.2.2.1 "other" (by decide) (by decide)).trans
      (by decide),
   (clearTokens_exact_frame _).2.2.2.2.2.2 "a" (by decide) (Or.inl rfl)⟩

/-- The directory record shipped in `mock-data/auth.json` used in the
login divergence below. -/
def directoryAdmin : UserCredential :=
  { id := "u1", email := "admin@example.com", password := "admin123",
    name := "Admin", role := .admin }

/-- The `custom_users` overlay entry produced by a password change from
`admin123` to `newpass` for the same user id. -/
def passwordEdit : UserCredential :=
  { id := "u1", email := "admin@example.com", password := "newpass",
    name := "Admin", role := .admin }

/-- C3: `login` matches only against the raw fetched directory and never
merges the `custom_users` overlay, so after a password change persisted
by `changePassword` the new password is rejected with
`INVALID_CREDENTIALS` while the old directory password still logs in —
even though the merge `getAllUsers` (which `changePassword` and
`getLoginExamples` rely on) resolves the user to the new password. -/
theorem login_ignores_custom_edits :
    (login [directoryAdmin]
        { emptyStore with customUsers := [passwordEdit] } 0 "a" "r"
        { email := "admin@example.com", password := "newpass" }).error =
      some .INVALID_CREDENTIALS ∧
    (login [directoryAdmin]
        { emptyStore with customUsers := [passwordEdit] } 0 "a" "r"
        { email := "admin@example.com", password := "admin123" }).error =
      none ∧
    (getAllUsers [directoryAdmin]
        ({ emptyStore with customUsers := [passwordEdit] } : Storage).customUsers).find?
        (fun u => u.email == "admin@example.com" && u.password == "newpass") =
      some passwordEdit := by
  refine ⟨?_, ?_, ?_⟩ <;> decide
